import Mathlib

/-!
Shallow embedding of the multi-timer scheduling engine from the LabTimer
component of the chemistry-calculator repository. All wall-clock instants and
durations are integers (milliseconds). Nullable timestamp fields are Option
Int; the JavaScript truthiness tests the source performs on them, such as
the check of timer.startedAt in calculateCurrentTime, are modelled by
jsTruthy, which is false both for null and for the number 0, exactly as in
JavaScript.
-/

namespace LabTimer

/-- Timer mode: the source's string union of "stopwatch" and "countdown". -/
inductive Mode where
  | stopwatch
  | countdown
deriving DecidableEq

/-- The Timer record from the source (LabTimer.tsx, interface Timer). -/
structure Timer where
  id : String
  name : String
  time : Int
  isRunning : Bool
  mode : Mode
  targetDuration : Int
  hasCompleted : Bool
  startedAt : Option Int
  pausedAt : Option Int
  endTime : Option Int
  accumulatedTime : Int
deriving DecidableEq

/-- JavaScript truthiness of a nullable number: null and 0 are both falsy. -/
def jsTruthy : Option Int → Bool
  | none => false
  | some x => x != 0

/-- Embedding of calculateCurrentTime (LabTimer.tsx lines 151 to 172). The
source reads the clock itself; here the instant is the explicit argument
now. -/
def calculateCurrentTime (timer : Timer) (now : Int) : Int :=
  if !timer.isRunning then
    timer.time
  else if timer.mode = Mode.stopwatch then
    if jsTruthy timer.startedAt then
      timer.accumulatedTime + (now - timer.startedAt.getD 0)
    else
      timer.accumulatedTime
  else
    if jsTruthy timer.endTime then
      max 0 (timer.endTime.getD 0 - now)
    else
      timer.time

/-- Embedding of the per-timer body of toggleTimer (LabTimer.tsx lines 282
to 318): pause when running, otherwise start, with the countdown guard on
timer.time being 0. -/
def toggleTimerT (timer : Timer) (now : Int) : Timer :=
  if timer.isRunning then
    let currentTime := calculateCurrentTime timer now
    { timer with
        isRunning := false
        time := currentTime
        startedAt := none
        pausedAt := some now
        accumulatedTime := if timer.mode = Mode.stopwatch then currentTime else 0 }
  else if timer.mode = Mode.countdown ∧ timer.time = 0 then
    timer
  else
    { timer with
        isRunning := true
        hasCompleted := false
        startedAt := some now
        pausedAt := none
        endTime := if timer.mode = Mode.countdown then some (now + timer.time) else none }

/-- Embedding of the per-timer body of resetTimer (LabTimer.tsx lines 320
to 337). -/
def resetTimerT (timer : Timer) : Timer :=
  { timer with
      time := if timer.mode = Mode.countdown then timer.targetDuration else 0
      isRunning := false
      hasCompleted := false
      startedAt := none
      pausedAt := none
      endTime := none
      accumulatedTime := 0 }

/-- Embedding of the per-timer body of the inline ZERO button handler
(LabTimer.tsx lines 650 to 662). -/
def zeroTimerT (timer : Timer) : Timer :=
  { timer with
      time := 0
      isRunning := false
      hasCompleted := false
      startedAt := none
      pausedAt := none
      endTime := none
      accumulatedTime := 0 }

/-- Embedding of the per-timer body of setTargetDuration (LabTimer.tsx lines
384 to 402). Note that the source does not touch isRunning here. -/
def setTargetDurationT (timer : Timer) (minutes : Int) : Timer :=
  let ms := minutes * 60 * 1000
  { timer with
      targetDuration := ms
      time := ms
      hasCompleted := false
      startedAt := none
      pausedAt := none
      endTime := none
      accumulatedTime := 0 }

/-- Embedding of the per-timer body of setPreset (LabTimer.tsx lines 404 to
422): targetDuration is overwritten only in countdown mode. -/
def setPresetT (timer : Timer) (ms : Int) : Timer :=
  { timer with
      time := ms
      isRunning := false
      hasCompleted := false
      startedAt := none
      pausedAt := none
      endTime := none
      accumulatedTime := 0
      targetDuration := if timer.mode = Mode.countdown then ms else timer.targetDuration }

/-- Embedding of the per-timer body of toggleMode (LabTimer.tsx lines 363 to
382). -/
def toggleModeT (timer : Timer) : Timer :=
  let newMode := if timer.mode = Mode.stopwatch then Mode.countdown else Mode.stopwatch
  { timer with
      mode := newMode
      time := if newMode = Mode.countdown then timer.targetDuration else 0
      isRunning := false
      hasCompleted := false
      startedAt := none
      pausedAt := none
      endTime := none
      accumulatedTime := 0 }

/-- Embedding of the per-timer body of the scheduler tick updateTimers
(LabTimer.tsx lines 176 to 213): completion check first, then the 10 ms
materiality threshold. The Bool component records whether the completion
event (alarm, notification, toast) was emitted for this timer. -/
def tickTimer (timer : Timer) (now : Int) : Timer × Bool :=
  if !timer.isRunning then
    (timer, false)
  else
    let currentTime := calculateCurrentTime timer now
    if timer.mode = Mode.countdown ∧ currentTime = 0 ∧ timer.hasCompleted = false ∧
        jsTruthy timer.endTime then
      ({ timer with
          time := 0
          isRunning := false
          hasCompleted := true
          endTime := none
          startedAt := none }, true)
    else if 10 ≤ |currentTime - timer.time| then
      ({ timer with time := currentTime }, false)
    else
      (timer, false)

/-- Embedding of the per-timer body of handleVisibilityChange (LabTimer.tsx
lines 232 to 263): same completion check as the tick, but a non-completing
running timer is always recommitted with the fresh time. -/
def recoverTimer (timer : Timer) (now : Int) : Timer × Bool :=
  if !timer.isRunning then
    (timer, false)
  else
    let currentTime := calculateCurrentTime timer now
    if timer.mode = Mode.countdown ∧ currentTime = 0 ∧ timer.hasCompleted = false ∧
        jsTruthy timer.endTime then
      ({ timer with
          time := 0
          isRunning := false
          hasCompleted := true
          endTime := none
          startedAt := none }, true)
    else
      ({ timer with time := currentTime }, false)

/-- A single driver observation of one timer: a SchedulerLoop tick or a
RecoveryHandler visibility-resume pass, each at some wall-clock instant. -/
inductive DriverOb where
  | tick (now : Int)
  | recover (now : Int)

/-- Apply one driver observation to a timer, returning the new state and
whether the completion event fired. -/
def applyDriver : DriverOb → Timer → Timer × Bool
  | DriverOb.tick now, t => tickTimer t now
  | DriverOb.recover now, t => recoverTimer t now

/-- Number of completion events emitted while a timer is observed by an
arbitrary interleaving of driver passes. -/
def driverEmissions : Timer → List DriverOb → Nat
  | _, [] => 0
  | t, o :: rest =>
    let r := applyDriver o t
    (if r.2 then 1 else 0) + driverEmissions r.1 rest

/-- The per-id mutation operations of the engine. -/
inductive MutOp where
  | toggle (now : Int)
  | reset
  | zero
  | setTarget (minutes : Int)
  | preset (ms : Int)
  | flipMode

/-- Apply a mutation operation to one timer. -/
def applyMut : MutOp → Timer → Timer
  | MutOp.toggle now, t => toggleTimerT t now
  | MutOp.reset, t => resetTimerT t
  | MutOp.zero, t => zeroTimerT t
  | MutOp.setTarget m, t => setTargetDurationT t m
  | MutOp.preset ms, t => setPresetT t ms
  | MutOp.flipMode, t => toggleModeT t

/-- A step of the engine on one timer: a user mutation or a driver pass. -/
inductive EngineOp where
  | user (op : MutOp)
  | drive (o : DriverOb)

/-- Apply an engine step to one timer (the driver's emitted event is
discarded here; only the state matters). -/
def applyEngine : EngineOp → Timer → Timer
  | EngineOp.user op, t => applyMut op t
  | EngineOp.drive o, t => (applyDriver o t).1

/-- The map-with-id-guard shape every per-id list operation in the source
uses: prev.map over the collection, transforming only the matching id. -/
def mapTimers (f : Timer → Timer) (id : String) (l : List Timer) : List Timer :=
  l.map (fun t => if t.id = id then f t else t)

/-- A per-id mutation applied to the whole collection, as each source
operation does via setTimers and map. -/
def applyMutList (op : MutOp) (id : String) (l : List Timer) : List Timer :=
  mapTimers (applyMut op) id l

/-- Embedding of deleteTimer (LabTimer.tsx lines 339 to 341). -/
def deleteTimer (id : String) (l : List Timer) : List Timer :=
  l.filter (fun t => t.id != id)

/-- The invariant the engine actually preserves: a present startedAt implies
the timer is running, and a present endTime implies countdown mode. -/
def invTimer (t : Timer) : Prop :=
  (t.startedAt ≠ none → t.isRunning = true) ∧
  (t.endTime ≠ none → t.mode = Mode.countdown)

instance (t : Timer) : Decidable (invTimer t) := by
  unfold invTimer
  infer_instance

/-- The invariant as the spec claims it: while running, exactly one of
startedAt and endTime is present, selected by mode; while not running both
are absent. -/
def invClaimed (t : Timer) : Bool :=
  if t.isRunning then
    (if t.mode = Mode.stopwatch then t.startedAt.isSome && t.endTime.isNone
     else t.endTime.isSome && t.startedAt.isNone)
  else
    t.startedAt.isNone && t.endTime.isNone

/-- The initial timer of the source, a fresh stopwatch (LabTimer.tsx lines
34 to 48). -/
def baseTimer : Timer :=
  { id := "1"
    name := "Main Timer"
    time := 0
    isRunning := false
    mode := Mode.stopwatch
    targetDuration := 0
    hasCompleted := false
    startedAt := none
    pausedAt := none
    endTime := none
    accumulatedTime := 0 }

/-- A running countdown with a nonzero end instant, for witnesses. -/
def cdRun : Timer :=
  { baseTimer with
      isRunning := true
      mode := Mode.countdown
      time := 1000
      targetDuration := 1000
      startedAt := some 5
      endTime := some 1005 }

/-- A running countdown whose endTime is the falsy instant 0. -/
def cdZeroEnd : Timer :=
  { baseTimer with
      isRunning := true
      mode := Mode.countdown
      time := 42
      targetDuration := 1000
      endTime := some 0 }

/-- A running stopwatch with a nonzero start instant, for witnesses. -/
def swRun : Timer :=
  { baseTimer with
      isRunning := true
      startedAt := some 100
      accumulatedTime := 250 }

/-- A running stopwatch whose startedAt is the falsy instant 0. -/
def swZeroStart : Timer :=
  { baseTimer with
      isRunning := true
      startedAt := some 0 }

/-- An idle countdown with a target set, ready to start. -/
def cdIdle : Timer :=
  { baseTimer with
      mode := Mode.countdown
      targetDuration := 60000
      time := 60000 }

/-- A completed countdown: display at zero, target still set. -/
def completedCd : Timer :=
  { baseTimer with
      mode := Mode.countdown
      targetDuration := 60000
      time := 0
      hasCompleted := true }

/-- An idle stopwatch whose display was set by a preset, so time and
accumulatedTime disagree. -/
def swPre : Timer :=
  { baseTimer with time := 30000 }

/-- A running stopwatch, used to show setTargetDuration disturbs a run. -/
def runSw : Timer :=
  { baseTimer with
      isRunning := true
      startedAt := some 100
      time := 5000
      accumulatedTime := 5000 }

/-- A running stopwatch with its startedAt field absent. -/
def swNoStamp : Timer :=
  { baseTimer with
      isRunning := true
      accumulatedTime := 77 }

/-- A running countdown with its endTime field absent. -/
def cdNoStamp : Timer :=
  { baseTimer with
      isRunning := true
      mode := Mode.countdown
      time := 55 }

/-- Second timer of a two-element collection, for frame properties. -/
def timerB : Timer :=
  { baseTimer with id := "2", name := "Second Timer", time := 321 }

lemma calculateCurrentTime_countdown_run (t : Timer) (e : Int) (hrun : t.isRunning = true)
    (hmode : t.mode = Mode.countdown) (he : t.endTime = some e) (hz : e ≠ 0) (now : Int) :
    calculateCurrentTime t now = max 0 (e - now) := by
  simp [calculateCurrentTime, hrun, hmode, he, jsTruthy, hz]

lemma calculateCurrentTime_stopwatch_run (t : Timer) (s : Int) (hrun : t.isRunning = true)
    (hmode : t.mode = Mode.stopwatch) (hs : t.startedAt = some s) (hz : s ≠ 0) (now : Int) :
    calculateCurrentTime t now = t.accumulatedTime + (now - s) := by
  simp [calculateCurrentTime, hrun, hmode, hs, jsTruthy, hz]

/-- Claim C2 (amended): for a running Countdown timer whose endTime is
present with a nonzero value e, calculateCurrentTime at any instant now
equals max 0 (e - now), is never negative, and is monotonically
non-increasing in now. -/
theorem claimC2_countdown_current_time (t : Timer) (e now : Int)
    (hrun : t.isRunning = true) (hmode : t.mode = Mode.countdown)
    (he : t.endTime = some e) (hz : e ≠ 0) :
    calculateCurrentTime t now = max 0 (e - now) ∧
    0 ≤ calculateCurrentTime t now ∧
    (∀ now2 : Int, now ≤ now2 → calculateCurrentTime t now2 ≤ calculateCurrentTime t now) := by
  have hc := calculateCurrentTime_countdown_run t e hrun hmode he hz
  refine ⟨hc now, ?_, ?_⟩
  · rw [hc now]
    exact le_max_left _ _
  · intro now2 h2
    rw [hc now, hc now2]
    exact max_le_max le_rfl (by omega)

/-- Witness for claim C2 on a concrete running countdown. -/
theorem claimC2_countdown_current_time_witness :
    cdRun.isRunning = true ∧ cdRun.mode = Mode.countdown ∧ cdRun.endTime = some 1005 ∧
    (1005 : Int) ≠ 0 ∧
    (calculateCurrentTime cdRun 500 = max 0 (1005 - 500) ∧
      0 ≤ calculateCurrentTime cdRun 500 ∧
      (∀ now2 : Int, 500 ≤ now2 → calculateCurrentTime cdRun now2 ≤ calculateCurrentTime cdRun 500)) :=
  ⟨rfl, rfl, rfl, by decide,
    claimC2_countdown_current_time cdRun 1005 500 rfl rfl rfl (by decide)⟩

/-- Counterexample to claim C2 as stated: the timer cdZeroEnd is a running
Countdown with endTime present and equal to 0, but at now = 5 the code
returns the cached displayTime 42 instead of max 0 (0 - 5) = 0, because the
source tests the endTime field with JavaScript truthiness and 0 is falsy. -/
theorem claimC2_counterexample :
    cdZeroEnd.isRunning = true ∧ cdZeroEnd.mode = Mode.countdown ∧
    cdZeroEnd.endTime = some 0 ∧
    calculateCurrentTime cdZeroEnd 5 ≠ max 0 ((0 : Int) - 5) := by
  refine ⟨rfl, rfl, rfl, ?_⟩
  decide

/-- Claim C3 (amended): for a running Stopwatch timer whose startedAt is
present with a nonzero value s and accumulatedTime a, calculateCurrentTime
at any now with s ≤ now equals a + (now - s), and the value is monotonically
non-decreasing in now. -/
theorem claimC3_stopwatch_current_time (t : Timer) (s a now : Int)
    (hrun : t.isRunning = true) (hmode : t.mode = Mode.stopwatch)
    (hs : t.startedAt = some s) (hz : s ≠ 0) (ha : t.accumulatedTime = a)
    (_hnow : s ≤ now) :
    calculateCurrentTime t now = a + (now - s) ∧
    (∀ n1 n2 : Int, s ≤ n1 → n1 ≤ n2 →
      calculateCurrentTime t n1 ≤ calculateCurrentTime t n2) := by
  have hc := calculateCurrentTime_stopwatch_run t s hrun hmode hs hz
  refine ⟨by rw [hc now, ha], ?_⟩
  intro n1 n2 _ h12
  rw [hc n1, hc n2]
  omega

/-- Witness for claim C3 on a concrete running stopwatch. -/
theorem claimC3_stopwatch_current_time_witness :
    swRun.isRunning = true ∧ swRun.mode = Mode.stopwatch ∧
    swRun.startedAt = some 100 ∧ (100 : Int) ≠ 0 ∧
    swRun.accumulatedTime = 250 ∧ (100 : Int) ≤ 400 ∧
    (calculateCurrentTime swRun 400 = 250 + (400 - 100) ∧
      (∀ n1 n2 : Int, 100 ≤ n1 → n1 ≤ n2 →
        calculateCurrentTime swRun n1 ≤ calculateCurrentTime swRun n2)) :=
  ⟨rfl, rfl, rfl, by decide, rfl, by decide,
    claimC3_stopwatch_current_time swRun 100 250 400 rfl rfl rfl (by decide) rfl (by decide)⟩

/-- Counterexample to claim C3 as stated: swZeroStart is a running Stopwatch
with startedAt present and equal to 0 and accumulatedTime 0, but at
now = 100 the code returns 0 instead of 0 + (100 - 0) = 100, because the
source tests the startedAt field with JavaScript truthiness and 0 is falsy. -/
theorem claimC3_counterexample :
    swZeroStart.isRunning = true ∧ swZeroStart.mode = Mode.stopwatch ∧
    swZeroStart.startedAt = some 0 ∧ swZeroStart.accumulatedTime = 0 ∧
    calculateCurrentTime swZeroStart 100 ≠ 0 + ((100 : Int) - 0) := by
  refine ⟨rfl, rfl, rfl, rfl, ?_⟩
  decide

/-- Claim C9: calculateCurrentTime is total and defined even on states the
invariants exclude: a non-running timer yields its displayTime, a running
Stopwatch with startedAt absent yields accumulatedTime, and a running
Countdown with endTime absent yields displayTime. -/
theorem claimC9_total_calculator :
    (∀ (t : Timer) (now : Int), t.isRunning = false →
      calculateCurrentTime t now = t.time) ∧
    (∀ (t : Timer) (now : Int), t.isRunning = true → t.mode = Mode.stopwatch →
      t.startedAt = none → calculateCurrentTime t now = t.accumulatedTime) ∧
    (∀ (t : Timer) (now : Int), t.isRunning = true → t.mode = Mode.countdown →
      t.endTime = none → calculateCurrentTime t now = t.time) := by
  refine ⟨?_, ?_, ?_⟩ <;> intro t now h1 <;>
    simp [calculateCurrentTime, h1, jsTruthy]
  · intro h2 h3
    simp [h2, h3, jsTruthy]
  · intro h2 h3
    simp [h2, h3, jsTruthy]

/-- Witness for claim C9 on three concrete degenerate states. -/
theorem claimC9_total_calculator_witness :
    (baseTimer.isRunning = false ∧ calculateCurrentTime baseTimer 9 = baseTimer.time) ∧
    (swNoStamp.isRunning = true ∧ swNoStamp.mode = Mode.stopwatch ∧
      swNoStamp.startedAt = none ∧
      calculateCurrentTime swNoStamp 9 = swNoStamp.accumulatedTime) ∧
    (cdNoStamp.isRunning = true ∧ cdNoStamp.mode = Mode.countdown ∧
      cdNoStamp.endTime = none ∧ calculateCurrentTime cdNoStamp 9 = cdNoStamp.time) :=
  ⟨⟨rfl, claimC9_total_calculator.1 baseTimer 9 rfl⟩,
    ⟨rfl, rfl, rfl, claimC9_total_calculator.2.1 swNoStamp 9 rfl rfl rfl⟩,
    ⟨rfl, rfl, rfl, claimC9_total_calculator.2.2 cdNoStamp 9 rfl rfl rfl⟩⟩

/-- Claim C4 (amended): start on a non-running Countdown timer fails and
leaves the state completely unchanged exactly when displayTime is 0 (the
source guard tests timer.time, not targetDuration); with displayTime
nonzero, start succeeds and sets isRunning to true. -/
theorem claimC4_countdown_start_guard (t : Timer) (now : Int)
    (hrun : t.isRunning = false) (hmode : t.mode = Mode.countdown) :
    (t.time = 0 → toggleTimerT t now = t) ∧
    (t.time ≠ 0 → (toggleTimerT t now).isRunning = true) := by
  constructor <;> intro h <;> simp [toggleTimerT, hrun, hmode, h]

/-- Witness for claim C4 on a concrete idle countdown with a target set. -/
theorem claimC4_countdown_start_guard_witness :
    cdIdle.isRunning = false ∧ cdIdle.mode = Mode.countdown ∧
    ((cdIdle.time = 0 → toggleTimerT cdIdle 7 = cdIdle) ∧
      (cdIdle.time ≠ 0 → (toggleTimerT cdIdle 7).isRunning = true)) :=
  ⟨rfl, rfl, claimC4_countdown_start_guard cdIdle 7 rfl rfl⟩

/-- Counterexample to claim C4 as stated: completedCd is a non-running
Countdown with targetDuration 60000 but displayTime 0 (a completed run), and
the claim says start must succeed and set isRunning; the source guard tests
displayTime and rejects it, leaving isRunning false. -/
theorem claimC4_counterexample :
    completedCd.isRunning = false ∧ (0 : Int) < completedCd.targetDuration ∧
    (toggleTimerT completedCd 100).isRunning = false ∧
    toggleTimerT completedCd 100 = completedCd := by
  refine ⟨rfl, by decide, ?_, ?_⟩ <;> decide

/-- Claim C5 (amended): every successful start on a non-running timer sets
isRunning to true, hasCompleted to false, startedAt to now, and for a
Countdown sets endTime to now + displayTime (none for a Stopwatch); it
leaves accumulatedTime and displayTime unchanged — start does not copy
displayTime into accumulatedTime. -/
theorem claimC5_start_effects (t : Timer) (now : Int)
    (hrun : t.isRunning = false)
    (hok : ¬(t.mode = Mode.countdown ∧ t.time = 0)) :
    (toggleTimerT t now).isRunning = true ∧
    (toggleTimerT t now).hasCompleted = false ∧
    (toggleTimerT t now).startedAt = some now ∧
    (toggleTimerT t now).accumulatedTime = t.accumulatedTime ∧
    (toggleTimerT t now).time = t.time ∧
    (toggleTimerT t now).endTime =
      (if t.mode = Mode.countdown then some (now + t.time) else none) := by
  simp [toggleTimerT, hrun, hok]

/-- Witness for claim C5 starting a concrete idle countdown. -/
theorem claimC5_start_effects_witness :
    cdIdle.isRunning = false ∧ ¬(cdIdle.mode = Mode.countdown ∧ cdIdle.time = 0) ∧
    ((toggleTimerT cdIdle 7).isRunning = true ∧
      (toggleTimerT cdIdle 7).hasCompleted = false ∧
      (toggleTimerT cdIdle 7).startedAt = some 7 ∧
      (toggleTimerT cdIdle 7).accumulatedTime = cdIdle.accumulatedTime ∧
      (toggleTimerT cdIdle 7).time = cdIdle.time ∧
      (toggleTimerT cdIdle 7).endTime =
        (if cdIdle.mode = Mode.countdown then some (7 + cdIdle.time) else none)) :=
  ⟨rfl, by decide, claimC5_start_effects cdIdle 7 rfl (by decide)⟩

/-- Counterexample to claim C5 as stated: swPre is an idle Stopwatch whose
displayTime 30000 was set by a preset while accumulatedTime is 0; the claim
says start sets accumulatedTime to the previous displayTime, but the source
start branch never writes accumulatedTime, so it stays 0. -/
theorem claimC5_counterexample :
    swPre.isRunning = false ∧ swPre.mode = Mode.stopwatch ∧ swPre.time = 30000 ∧
    (toggleTimerT swPre 50).isRunning = true ∧
    (toggleTimerT swPre 50).accumulatedTime ≠ swPre.time := by
  refine ⟨rfl, rfl, rfl, ?_, ?_⟩ <;> decide

/-- Claim C7 (amended): setTargetDuration converts minutes to milliseconds
and writes both targetDuration and displayTime unconditionally, running or
not; it clears hasCompleted and all three timestamp fields, zeroes
accumulatedTime, and leaves isRunning unchanged. -/
theorem claimC7_set_target_duration (t : Timer) (minutes : Int) :
    (setTargetDurationT t minutes).targetDuration = minutes * 60 * 1000 ∧
    (setTargetDurationT t minutes).time = minutes * 60 * 1000 ∧
    (setTargetDurationT t minutes).hasCompleted = false ∧
    (setTargetDurationT t minutes).startedAt = none ∧
    (setTargetDurationT t minutes).pausedAt = none ∧
    (setTargetDurationT t minutes).endTime = none ∧
    (setTargetDurationT t minutes).accumulatedTime = 0 ∧
    (setTargetDurationT t minutes).isRunning = t.isRunning := by
  refine ⟨rfl, rfl, rfl, rfl, rfl, rfl, rfl, rfl⟩

/-- Counterexample to claim C7 as stated: runSw is a running timer with
displayTime 5000, and the claim says a running timer's displayTime is not
overwritten and its run is not disturbed; the source overwrites displayTime
with the new target and clears startedAt while leaving the timer running. -/
theorem claimC7_counterexample :
    runSw.isRunning = true ∧ runSw.time = 5000 ∧
    (setTargetDurationT runSw 2).time ≠ runSw.time ∧
    (setTargetDurationT runSw 2).isRunning = true ∧
    (setTargetDurationT runSw 2).startedAt = none := by
  refine ⟨rfl, rfl, ?_, rfl, rfl⟩
  decide

/-- Claim C8 (amended): the stopwatch pause and resume round trip holds when
the run segment starts at a nonzero instant: starting the fresh stopwatch at
now = 1 and pausing at now = 501 commits displayTime 500; resuming at
now = 701 and querying at now = 901 yields 700 — paused intervals contribute
nothing and elapsed time accumulates across segments. -/
theorem claimC8_pause_resume_round_trip :
    (toggleTimerT (toggleTimerT baseTimer 1) 501).time = 500 ∧
    calculateCurrentTime
      (toggleTimerT (toggleTimerT (toggleTimerT baseTimer 1) 501) 701) 901 = 700 := by
  refine ⟨?_, ?_⟩ <;> decide

/-- Counterexample to claim C8 as stated: starting the fresh stopwatch at
exactly now = 0 stores startedAt = 0, which the source's truthiness test
treats as absent, so the pause at now = 500 commits accumulatedTime 0
instead of the claimed 500. -/
theorem claimC8_counterexample :
    (toggleTimerT baseTimer 0).isRunning = true ∧
    (toggleTimerT baseTimer 0).startedAt = some 0 ∧
    (toggleTimerT (toggleTimerT baseTimer 0) 500).time ≠ 500 := by
  refine ⟨?_, ?_, ?_⟩ <;> decide

lemma applyDriver_of_not_running (o : DriverOb) {t : Timer} (h : t.isRunning = false) :
    applyDriver o t = (t, false) := by
  cases o <;> simp [applyDriver, tickTimer, recoverTimer, h]

lemma applyDriver_emit_stops (o : DriverOb) (t : Timer) :
    (applyDriver o t).2 = true → (applyDriver o t).1.isRunning = false := by
  cases o <;> simp only [applyDriver, tickTimer, recoverTimer] <;>
    split <;> try simp
  all_goals (split <;> try simp)
  all_goals (split <;> simp)

lemma driverEmissions_of_not_running {t : Timer} (h : t.isRunning = false) :
    ∀ obs : List DriverOb, driverEmissions t obs = 0 := by
  intro obs
  induction obs with
  | nil => rfl
  | cons o rest ih => simp [driverEmissions, applyDriver_of_not_running o h, ih]

/-- Claim C1: for any single timer and any interleaving of SchedulerLoop
ticks and RecoveryHandler resume passes at arbitrary instants, the countdown
completion event is emitted at most once: the first observer of the
zero-crossing commits hasCompleted and stops the timer, and every later
driver pass in the same run segment is a no-op. -/
theorem claimC1_completion_at_most_once (t : Timer) (obs : List DriverOb) :
    driverEmissions t obs ≤ 1 := by
  induction obs generalizing t with
  | nil => simp [driverEmissions]
  | cons o rest ih =>
    simp only [driverEmissions]
    cases hemit : (applyDriver o t).2 with
    | false => simpa [hemit] using ih (applyDriver o t).1
    | true =>
      have hstop := applyDriver_emit_stops o t hemit
      simp [hemit, driverEmissions_of_not_running hstop rest]

/-- Counterexample to claim C6 as stated: cdIdle satisfies the claimed
invariant (not running, both timestamps absent), but starting it sets both
startedAt and endTime while running, so the start operation does not
preserve the invariant that exactly one of the two is present. -/
theorem claimC6_counterexample :
    invClaimed cdIdle = true ∧
    (toggleTimerT cdIdle 5).isRunning = true ∧
    (toggleTimerT cdIdle 5).startedAt = some 5 ∧
    (toggleTimerT cdIdle 5).endTime = some 60005 ∧
    invClaimed (toggleTimerT cdIdle 5) = false := by
  refine ⟨?_, ?_, ?_, ?_, ?_⟩ <;> decide

/-- Claim C6 (amended): every mutation operation and every driver step
preserves the invariant that a present startedAt implies the timer is
running (so a non-running timer has startedAt absent) and a present endTime
implies Countdown mode. The claimed stronger invariant fails: start on a
Countdown sets both timestamps, pause leaves a Countdown's endTime present
while not running, and setTargetDuration on a running timer leaves it
running with both timestamps absent. -/
theorem claimC6_invariant_preserved (op : EngineOp) (t : Timer)
    (h : invTimer t) : invTimer (applyEngine op t) := by
  obtain ⟨h1, h2⟩ := h
  cases op with
  | user m =>
    cases m with
    | toggle now =>
      simp only [applyEngine, applyMut, toggleTimerT]
      split
      · exact ⟨fun hx => by simp at hx, fun hx => h2 hx⟩
      · split
        · exact ⟨h1, h2⟩
        · refine ⟨fun _ => rfl, fun hx => ?_⟩
          by_cases hm : t.mode = Mode.countdown <;> simp [hm] at hx ⊢
    | reset => exact ⟨fun hx => by simp [applyEngine, applyMut, resetTimerT] at hx,
        fun hx => by simp [applyEngine, applyMut, resetTimerT] at hx⟩
    | zero => exact ⟨fun hx => by simp [applyEngine, applyMut, zeroTimerT] at hx,
        fun hx => by simp [applyEngine, applyMut, zeroTimerT] at hx⟩
    | setTarget m => exact ⟨fun hx => by simp [applyEngine, applyMut, setTargetDurationT] at hx,
        fun hx => by simp [applyEngine, applyMut, setTargetDurationT] at hx⟩
    | preset ms => exact ⟨fun hx => by simp [applyEngine, applyMut, setPresetT] at hx,
        fun hx => by simp [applyEngine, applyMut, setPresetT] at hx⟩
    | flipMode => exact ⟨fun hx => by simp [applyEngine, applyMut, toggleModeT] at hx,
        fun hx => by simp [applyEngine, applyMut, toggleModeT] at hx⟩
  | drive o =>
    cases o with
    | tick now =>
      simp only [applyEngine, applyDriver, tickTimer]
      split
      · exact ⟨h1, h2⟩
      · split
        · exact ⟨fun hx => by simp at hx, fun hx => by simp at hx⟩
        · split
          · exact ⟨h1, h2⟩
          · exact ⟨h1, h2⟩
    | recover now =>
      simp only [applyEngine, applyDriver, recoverTimer]
      split
      · exact ⟨h1, h2⟩
      · split
        · exact ⟨fun hx => by simp at hx, fun hx => by simp at hx⟩
        · exact ⟨h1, h2⟩

/-- Witness for claim C6: starting the concrete idle countdown preserves the
amended invariant. -/
theorem claimC6_invariant_preserved_witness :
    invTimer cdIdle ∧ invTimer (applyEngine (EngineOp.user (MutOp.toggle 5)) cdIdle) :=
  ⟨by decide, claimC6_invariant_preserved (EngineOp.user (MutOp.toggle 5)) cdIdle (by decide)⟩

/-- Claim C10: every per-id mutation leaves the collection's length
unchanged and every timer at a position whose id differs from the targeted
id completely unchanged, and deleteTimer keeps exactly the timers whose id
differs from the targeted id. -/
theorem claimC10_frame :
    (∀ (op : MutOp) (id : String) (l : List Timer),
      (applyMutList op id l).length = l.length ∧
      (∀ (i : Nat) (t : Timer), l[i]? = some t → t.id ≠ id →
        (applyMutList op id l)[i]? = some t)) ∧
    (∀ (id : String) (l : List Timer) (t : Timer),
      t ∈ deleteTimer id l ↔ t ∈ l ∧ t.id ≠ id) := by
  constructor
  · intro op id l
    constructor
    · simp [applyMutList, mapTimers]
    · intro i t hget hid
      simp [applyMutList, mapTimers, List.getElem?_map, hget, hid]
  · intro id l t
    simp [deleteTimer, List.mem_filter]

/-- Witness for claim C10 on a concrete two-timer collection: resetting the
timer with id 1 leaves the timer with id 2 untouched, and deleting id 1
keeps exactly the timer with id 2. -/
theorem claimC10_frame_witness :
    ([baseTimer, timerB][1]? = some timerB ∧ timerB.id ≠ "1" ∧
      (applyMutList MutOp.reset "1" [baseTimer, timerB])[1]? = some timerB) ∧
    (timerB ∈ deleteTimer "1" [baseTimer, timerB] ↔
      timerB ∈ [baseTimer, timerB] ∧ timerB.id ≠ "1") :=
  ⟨⟨by decide, by decide,
      claimC10_frame.1 MutOp.reset "1" [baseTimer, timerB] |>.2 1 timerB (by decide) (by decide)⟩,
    claimC10_frame.2 "1" [baseTimer, timerB] timerB⟩

end LabTimer
